import Mathlib

/-!
Verification of the Finance Tracker budget simulation engine.

The repository stores all money amounts as decimal numbers and all calendar
instants as timestamps in a fixed reference timezone (UTC+8 in the source).
We embed amounts as exact rationals and instants as rationals measured in
days, so that an integer value denotes local midnight of that calendar day
and the integer part of an instant is its calendar day.  JS millisecond
arithmetic `(a - b) / 86400000` becomes plain subtraction of day-valued
rationals; the end-of-day timestamp 23:59:59.999 becomes the fractional
offset 86399999 / 86400000 of a day.

Three revisions of the engine are embedded, following the source:
 - `calculateBudgetStats`: the adaptive piggy-bank simulator (the revision
   of `part_004` lines 131-234, adopted by the specification);
 - `botCalculateBudgetStats`: the revision in `src/bot/index.js` lines
   438-524, which credits the piggy bank against the static base limit and
   clamps the daily limit with min and max;
 - `clampApiStatus`: the clamp-variant status handler of `part_004` lines
   740-817, which has no zero clamp on the reported daily limit.
-/

/-- Transaction type tag.  Source rows with a missing `Type` cell are
counted as Variable by every revision (`type === 'Variable' || !type`),
so the embedding folds the missing case into `Variable`. -/
inductive TxnType where
  | Fixed : TxnType
  | Variable : TxnType
deriving DecidableEq

/-- A ledger row: calendar day (as a day number in the reference
timezone), positive decimal amount, and type tag. -/
structure Txn where
  day : ℤ
  amount : ℚ
  ty : TxnType
deriving DecidableEq

/-- The `dailyMap` of the source: per-day sum of the amounts of the
Variable-type rows (`part_004` lines 165-177). -/
def dailySpendOf (ledger : List Txn) (d : ℤ) : ℚ :=
  ((ledger.filter fun t => t.day == d && t.ty == TxnType.Variable).map Txn.amount).sum

/-- The active budget configuration row of the `Budget_Config` sheet. -/
structure BudgetPeriod where
  principal : ℚ
  fixedSpent : ℚ
  varSpent : ℚ
  startDay : ℤ
  endDay : ℤ
deriving DecidableEq

/-- Fractional part of a day corresponding to the timestamp 23:59:59.999,
used by the source to build `inclusiveEnd` (`part_004` line 152). -/
def endFrac : ℚ := 86399999 / 86400000

/-- JS `Math.max` on finite decimal amounts. -/
def jsMax (a b : ℚ) : ℚ := if a ≤ b then b else a

/-- JS `Math.min` on finite decimal amounts. -/
def jsMin (a b : ℚ) : ℚ := if a ≤ b then a else b

/-- `daysLeft` of `part_004` lines 152-155:
`Math.max(Math.ceil((inclusiveEnd - now) / dayMs), 1)` where
`inclusiveEnd` is the end date at 23:59:59.999. -/
def daysLeftOf (p : BudgetPeriod) (now : ℚ) : ℤ :=
  max ⌈((p.endDay : ℚ) + endFrac) - now⌉ 1

/-- `totalDuration` of `part_004` line 156:
`Math.ceil((inclusiveEnd - start) / dayMs)`. -/
def totalDurationOf (p : BudgetPeriod) : ℤ :=
  ⌈((p.endDay : ℚ) + endFrac) - (p.startDay : ℚ)⌉

/-- `baseDailyLimit = disposableTotal / totalDuration`
(`part_004` lines 180-181). -/
def baseLimitOf (p : BudgetPeriod) : ℚ :=
  (p.principal - p.fixedSpent) / ((totalDurationOf p : ℤ) : ℚ)

/-- Number of iterations of the simulation loop: the loop of `part_004`
lines 185-216 walks the calendar days from `startDate` up to and including
`yesterday` relative to the evaluation instant, i.e. the days
`startDay, …, ⌊now⌋ - 1`. -/
def numSimDays (p : BudgetPeriod) (now : ℚ) : ℕ :=
  (⌊now⌋ - p.startDay).toNat

/-- The day-by-day piggy-bank loop of `part_004` lines 191-216, recursing
on the number of remaining iterations.  State: current day, the
`currentDaysRemaining` counter (decremented at the top of each iteration),
`currentDailyLimit` and `piggyBank`.  Underspending credits the piggy bank
and keeps the limit; overspending lowers the limit by
`overspend / currentDaysRemaining` when the counter is still positive and
keeps the piggy bank; an exactly-on-limit day changes neither. -/
def piggyLoop (spend : ℤ → ℚ) : ℕ → ℤ → ℤ → ℚ → ℚ → ℚ × ℚ
  | 0, _, _, limit, piggy => (limit, piggy)
  | n + 1, day, rem, limit, piggy =>
      let s := spend day
      let r := rem - 1
      if s < limit then
        piggyLoop spend n (day + 1) r limit (piggy + (limit - s))
      else if limit < s then
        piggyLoop spend n (day + 1) r
          (if 0 < r then limit - (s - limit) / ((r : ℤ) : ℚ) else limit) piggy
      else
        piggyLoop spend n (day + 1) r limit piggy

/-- The snapshot assembled by `calculateBudgetStats` (`part_004`
lines 218-233). -/
structure BudgetStats where
  daysLeft : ℤ
  totalDuration : ℤ
  baseDailyLimit : ℚ
  piggyBank : ℚ
  realDailyLimit : ℚ
  spentToday : ℚ
  leftToday : ℚ
deriving DecidableEq

/-- The adopted piggy-bank engine, `calculateBudgetStats` of `part_004`
lines 131-234, for an active budget row.  `spend d` is the `dailyMap`
lookup for day `d` (0 when absent) and `now` the evaluation instant. -/
def calculateBudgetStats (p : BudgetPeriod) (spend : ℤ → ℚ) (now : ℚ) : BudgetStats :=
  let sim := piggyLoop spend (numSimDays p now) p.startDay (totalDurationOf p) (baseLimitOf p) 0
  let real := jsMax 0 sim.1
  { daysLeft := daysLeftOf p now
    totalDuration := totalDurationOf p
    baseDailyLimit := baseLimitOf p
    piggyBank := sim.2
    realDailyLimit := real
    spentToday := spend ⌊now⌋
    leftToday := real - spend ⌊now⌋ }

/-- The JSON body of `GET /api/status` (`part_004` lines 269-289): the
inactive shape carries `active = false` and the active shape copies the
stats and sets `isWarning` to `leftToday < 0`. -/
structure ApiStatus where
  active : Bool
  principal : ℚ
  fixedSpent : ℚ
  varSpent : ℚ
  daysLeft : ℤ
  daily : ℚ
  spentToday : ℚ
  leftToday : ℚ
  safetyBuffer : ℚ
  isWarning : Bool
deriving DecidableEq

/-- The body returned when no budget row exists. -/
def inactiveStatus : ApiStatus :=
  { active := false, principal := 0, fixedSpent := 0, varSpent := 0, daysLeft := 0
    daily := 0, spentToday := 0, leftToday := 0, safetyBuffer := 0, isWarning := false }

/-- The `/api/status` handler of `part_004` lines 269-289 over the piggy
bank engine: with no budget row (`calculateBudgetStats` returns null) it
answers `active = false`; otherwise it reports the computed snapshot. -/
def apiStatus (cfg : Option BudgetPeriod) (spend : ℤ → ℚ) (now : ℚ) : ApiStatus :=
  match cfg with
  | none => inactiveStatus
  | some p =>
      let s := calculateBudgetStats p spend now
      { active := true, principal := p.principal, fixedSpent := p.fixedSpent
        varSpent := p.varSpent, daysLeft := s.daysLeft, daily := s.realDailyLimit
        spentToday := s.spentToday, leftToday := s.leftToday
        safetyBuffer := s.piggyBank, isWarning := decide (s.leftToday < 0) }

/-- The piggy accumulation of the `src/bot/index.js` revision
(lines 493-504): every prior day with spending strictly below the static
base limit credits the shortfall; the limit itself is never touched by
this loop. -/
def botPiggy (spend : ℤ → ℚ) (base : ℚ) : ℕ → ℤ → ℚ → ℚ
  | 0, _, piggy => piggy
  | n + 1, day, piggy =>
      botPiggy spend base n (day + 1)
        (if spend day < base then piggy + (base - spend day) else piggy)

/-- The `daysLeft` of the midnight-based revisions (`src/bot/index.js`
lines 458-459 and the clamp-variant handler, `part_004` lines 763-764):
`Math.max(Math.ceil((end - now) / dayMs), 1)` where `end` is local
midnight at the start of the end date — no 23:59:59.999 adjustment. -/
def botDaysLeftOf (p : BudgetPeriod) (now : ℚ) : ℤ :=
  max ⌈(p.endDay : ℚ) - now⌉ 1

/-- The `totalDuration` of the same revisions:
`Math.ceil((end - start) / dayMs) + 1` with both dates at midnight. -/
def botTotalDurationOf (p : BudgetPeriod) : ℤ :=
  ⌈(p.endDay : ℚ) - (p.startDay : ℚ)⌉ + 1

/-- The static ceiling of the same revisions:
`disposableTotal / totalDuration`. -/
def botBaseOf (p : BudgetPeriod) : ℚ :=
  (p.principal - p.fixedSpent) / ((botTotalDurationOf p : ℤ) : ℚ)

/-- `calculateBudgetStats` of `src/bot/index.js` lines 438-524.  Its date
math measures `daysLeft` to local midnight of the end date, and it reports
`realDailyLimit = max(0, min(baseDailyLimit, totalRemaining / daysLeft))`
(line 510). -/
def botCalculateBudgetStats (p : BudgetPeriod) (spend : ℤ → ℚ) (now : ℚ) : BudgetStats :=
  let piggy := botPiggy spend (botBaseOf p) (numSimDays p now) p.startDay 0
  let rawLimit : ℚ :=
    ((p.principal - p.fixedSpent) - p.varSpent) / ((botDaysLeftOf p now : ℤ) : ℚ)
  let real := jsMax 0 (jsMin (botBaseOf p) rawLimit)
  { daysLeft := botDaysLeftOf p now
    totalDuration := botTotalDurationOf p
    baseDailyLimit := botBaseOf p
    piggyBank := piggy
    realDailyLimit := real
    spentToday := spend ⌊now⌋
    leftToday := real - spend ⌊now⌋ }

/-- The snapshot of the clamp-variant `/api/status` handler (`part_004`
lines 740-817). -/
structure ClampStatus where
  daysLeft : ℤ
  daily : ℚ
  spentToday : ℚ
  leftToday : ℚ
  tomorrow : ℚ
  safetyBuffer : ℚ
  isWarning : Bool
deriving DecidableEq

/-- The clamp-variant `/api/status` handler of `part_004` lines 740-817:
`daily = min(staticCeiling, morningDynamicLimit)` with no zero clamp, and
`isWarning = morningDynamicLimit < staticCeiling`.  `spentToday` is the
sum of today's Variable rows, read from the month sheet. -/
def clampApiStatus (p : BudgetPeriod) (spentToday : ℚ) (now : ℚ) : ClampStatus :=
  let daysLeft : ℤ := botDaysLeftOf p now
  let disposable : ℚ := p.principal - p.fixedSpent
  let staticCeiling : ℚ := botBaseOf p
  let priorVarSpent : ℚ := p.varSpent - spentToday
  let morningRemaining : ℚ := disposable - priorVarSpent
  let morningDynamicLimit : ℚ := morningRemaining / ((daysLeft : ℤ) : ℚ)
  let effectiveLimit : ℚ := jsMin staticCeiling morningDynamicLimit
  let remainingReal : ℚ := disposable - p.varSpent
  let nextDays : ℤ := if 1 < daysLeft then daysLeft - 1 else 1
  let tomorrowLimit : ℚ := remainingReal / ((nextDays : ℤ) : ℚ)
  { daysLeft := daysLeft
    daily := effectiveLimit
    spentToday := spentToday
    leftToday := effectiveLimit - spentToday
    tomorrow := tomorrowLimit
    safetyBuffer := tomorrowLimit - staticCeiling
    isWarning := decide (morningDynamicLimit < staticCeiling) }

/-- Gregorian leap-year test, as realized by the JS `Date` normalization
the validator round-trips through. -/
def isLeapYear (y : ℤ) : Bool :=
  (y % 4 == 0 && y % 100 != 0) || (y % 400 == 0)

/-- Length of a calendar month under JS `Date` normalization. -/
def daysInMonth (m y : ℤ) : ℤ :=
  if m = 2 then (if isLeapYear y then 29 else 28)
  else if m = 4 ∨ m = 6 ∨ m = 9 ∨ m = 11 then 30
  else 31

/-- `isValidDateInCurrentMonth` of `part_004` lines 103-106.  The source
builds `new Date(y, m - 1, d)` and checks that year, month and day
round-trip unchanged; `Date` normalizes out-of-range fields, so the check
succeeds exactly for structurally valid calendar dates.  Nothing in the
function reads the clock: despite its name it has no current-month input
at all. -/
def isValidDateInCurrentMonth (d m y : ℤ) : Bool :=
  1 ≤ m && m ≤ 12 && 1 ≤ d && d ≤ daysInMonth m y

/-- Lexicographic order on (year, month, day) triples: for structurally
valid dates this agrees with the JS comparison of the two `Date` values
(`part_004` line 379). -/
def dateBefore (a b : ℤ × ℤ × ℤ) : Bool :=
  let ka := a.2.2 * 10000 + a.2.1 * 100 + a.1
  let kb := b.2.2 * 10000 + b.2.1 * 100 + b.1
  ka < kb

/-- Outcome of the `/budget` command pipeline. -/
inductive BudgetCmdOutcome where
  | amountError : BudgetCmdOutcome
  | startDateError : BudgetCmdOutcome
  | endDateError : BudgetCmdOutcome
  | orderError : BudgetCmdOutcome
  | created : ℤ × ℤ × ℤ → ℤ × ℤ × ℤ → ℚ → BudgetCmdOutcome
deriving DecidableEq

/-- The validation pipeline of `bot.command('budget')` (`part_004` lines
362-384): reject a non-numeric amount (`none` models NaN), reject either
date failing `isValidDateInCurrentMonth`, reject start after end;
otherwise clear the config sheet and store the new `BudgetPeriod` row. -/
def budgetCommand (d1 m1 y1 d2 m2 y2 : ℤ) (amount : Option ℚ) : BudgetCmdOutcome :=
  match amount with
  | none => .amountError
  | some a =>
      if !(isValidDateInCurrentMonth d1 m1 y1) then .startDateError
      else if !(isValidDateInCurrentMonth d2 m2 y2) then .endDateError
      else if dateBefore (d2, m2, y2) (d1, m1, y1) then .orderError
      else .created (d1, m1, y1) (d2, m2, y2) a

/-- Modelled from the spec: one day of the carry-forward walk as worded in
section 4.1, steps 3-5.  Input: that day's spending, the running
(currentLimit, piggyBank) pair, and `daysRemainingAfterThisOne` (the
remaining-days counter already decremented for this iteration).
Underspending credits the unspent portion and keeps the limit;
overspending subtracts `overspend / daysRemainingAfterThisOne` from the
limit (skipped when no days remain) and keeps the piggy bank; exact
equality changes neither. -/
def specDayStep (s : ℚ) (st : ℚ × ℚ) (remAfter : ℤ) : ℚ × ℚ :=
  if s < st.1 then (st.1, st.2 + (st.1 - s))
  else if st.1 < s then
    ((if 0 < remAfter then st.1 - (s - st.1) / ((remAfter : ℤ) : ℚ) else st.1), st.2)
  else st

/-- Modelled from the spec: the walk of section 4.1, started from
`currentLimit = baseDailyLimit` and `piggyBank = 0`, where day `k`
(0-based, calendar day `s + k`) is processed with
`daysRemainingAfterThisOne = totalDuration - (k + 1)`. -/
def specSim (spend : ℤ → ℚ) (s : ℤ) (td : ℤ) (base : ℚ) : ℕ → ℚ × ℚ
  | 0 => (base, 0)
  | n + 1 => specDayStep (spend (s + (n : ℤ))) (specSim spend s td base n) (td - ((n : ℤ) + 1))

/-! ### Elementary facts about the embedded arithmetic -/

theorem jsMax_eq_max (a b : ℚ) : jsMax a b = max a b := by
  unfold jsMax
  split_ifs with h
  · exact (max_eq_right h).symm
  · exact (max_eq_left (le_of_not_le h)).symm

theorem jsMin_eq_min (a b : ℚ) : jsMin a b = min a b := by
  unfold jsMin
  split_ifs with h
  · exact (min_eq_left h).symm
  · exact (min_eq_right (le_of_not_le h)).symm

theorem endFrac_pos : (0 : ℚ) < endFrac := by norm_num [endFrac]

theorem endFrac_le_one : endFrac ≤ 1 := by norm_num [endFrac]

/-- Ceiling of (whole end day + 23:59:59.999 fraction) minus a whole-day
instant. -/
theorem ceil_endFrac (a b : ℤ) : ⌈((a : ℚ) + endFrac) - (b : ℚ)⌉ = a - b + 1 := by
  rw [Int.ceil_eq_iff]
  push_cast
  constructor
  · linarith [endFrac_pos]
  · linarith [endFrac_le_one]

theorem ceil_int_sub_int (a b : ℤ) : ⌈(a : ℚ) - (b : ℚ)⌉ = a - b := by
  rw [show (a : ℚ) - (b : ℚ) = ((a - b : ℤ) : ℚ) by push_cast; ring, Int.ceil_intCast]

theorem totalDurationOf_eq (p : BudgetPeriod) :
    totalDurationOf p = p.endDay - p.startDay + 1 :=
  ceil_endFrac p.endDay p.startDay

theorem daysLeftOf_int (p : BudgetPeriod) (m : ℤ) :
    daysLeftOf p ((m : ℤ) : ℚ) = max (p.endDay - m + 1) 1 := by
  unfold daysLeftOf
  rw [ceil_endFrac]

theorem botDaysLeftOf_int (p : BudgetPeriod) (m : ℤ) :
    botDaysLeftOf p ((m : ℤ) : ℚ) = max (p.endDay - m) 1 := by
  unfold botDaysLeftOf
  rw [ceil_int_sub_int]

theorem botTotalDurationOf_eq (p : BudgetPeriod) :
    botTotalDurationOf p = p.endDay - p.startDay + 1 := by
  unfold botTotalDurationOf
  rw [ceil_int_sub_int]

theorem numSimDays_int (p : BudgetPeriod) (m : ℤ) :
    numSimDays p ((m : ℤ) : ℚ) = (m - p.startDay).toNat := by
  unfold numSimDays
  rw [Int.floor_intCast]

/-! ### The source loop realizes the worded walk -/

theorem piggyLoop_cons (spend : ℤ → ℚ) (n : ℕ) (day rem : ℤ) (limit piggy : ℚ) :
    piggyLoop spend (n + 1) day rem limit piggy
      = piggyLoop spend n (day + 1) (rem - 1)
          (specDayStep (spend day) (limit, piggy) (rem - 1)).1
          (specDayStep (spend day) (limit, piggy) (rem - 1)).2 := by
  simp only [piggyLoop, specDayStep]
  split_ifs <;> rfl

theorem piggyLoop_succ_eq (spend : ℤ → ℚ) :
    ∀ (n : ℕ) (day rem : ℤ) (limit piggy : ℚ),
      piggyLoop spend (n + 1) day rem limit piggy
        = specDayStep (spend (day + (n : ℤ)))
            (piggyLoop spend n day rem limit piggy) (rem - ((n : ℤ) + 1)) := by
  intro n
  induction n with
  | zero =>
      intro day rem limit piggy
      rw [piggyLoop_cons]
      simp [piggyLoop]
  | succ n ih =>
      intro day rem limit piggy
      rw [piggyLoop_cons, ih, piggyLoop_cons]
      push_cast
      have e1 : day + 1 + (n : ℤ) = day + ((n : ℤ) + 1) := by ring
      have e2 : rem - 1 - ((n : ℤ) + 1) = rem - ((n : ℤ) + 1 + 1) := by ring
      rw [e1, e2]

theorem specSim_eq_piggyLoop (spend : ℤ → ℚ) (s td : ℤ) (base : ℚ) :
    ∀ n : ℕ, specSim spend s td base n = piggyLoop spend n s td base 0 := by
  intro n
  induction n with
  | zero => rfl
  | succ n ih =>
      rw [piggyLoop_succ_eq]
      simp only [specSim]
      rw [ih]

theorem specDayStep_fst_le (s : ℚ) (st : ℚ × ℚ) (r : ℤ) :
    (specDayStep s st r).1 ≤ st.1 := by
  unfold specDayStep
  by_cases h1 : s < st.1
  · simp [h1]
  · by_cases h2 : st.1 < s
    · by_cases h3 : 0 < r
      · have hpos : (0 : ℚ) < ((r : ℤ) : ℚ) := by exact_mod_cast h3
        have hq : 0 ≤ (s - st.1) / ((r : ℤ) : ℚ) :=
          div_nonneg (by linarith) hpos.le
        simp only [h1, h2, h3, if_false, if_true, ite_true, ite_false, if_neg, if_pos]
        simp [h1, h2, h3]
        linarith
      · simp [h1, h2, h3]
    · simp [h1, h2]

theorem specDayStep_of_lt (s : ℚ) (st : ℚ × ℚ) (r : ℤ) (h : s < st.1) :
    specDayStep s st r = (st.1, st.2 + (st.1 - s)) := by
  unfold specDayStep
  rw [if_pos h]

theorem specDayStep_fst_of_nonpos (s : ℚ) (st : ℚ × ℚ) (r : ℤ) (hr : r ≤ 0) :
    (specDayStep s st r).1 = st.1 := by
  unfold specDayStep
  by_cases h1 : s < st.1
  · simp [h1]
  · by_cases h2 : st.1 < s
    · simp [h1, h2, not_lt.mpr hr]
    · simp [h1, h2]

theorem specDayStep_snd_of_not_lt (s : ℚ) (st : ℚ × ℚ) (r : ℤ) (h : ¬ s < st.1) :
    (specDayStep s st r).2 = st.2 := by
  unfold specDayStep
  by_cases h2 : st.1 < s
  · simp [h, h2]
  · simp [h, h2]

/-! ### Claims -/

/-- Claim C1: for every BudgetPeriod and ledger, the piggy-bank simulator
computes `dailyLimit` and `safetyBuffer` by walking each calendar day from
the start date through the day before the evaluation day, starting from
`currentLimit = baseDailyLimit` and `piggyBank = 0`: its outputs are
exactly those of the walk worded in the specification (`specSim`), an
underspent day credits the unspent portion and leaves the limit unchanged,
an overspent day amortizes the overspend over the remaining days and
leaves the buffer unchanged, and across every iteration the ceiling never
rises. -/
theorem budget_C1 (p : BudgetPeriod) (ledger : List Txn) (now : ℚ) :
    ((calculateBudgetStats p (dailySpendOf ledger) now).piggyBank
        = (specSim (dailySpendOf ledger) p.startDay (totalDurationOf p) (baseLimitOf p)
            (numSimDays p now)).2
      ∧ (calculateBudgetStats p (dailySpendOf ledger) now).realDailyLimit
        = max 0 (specSim (dailySpendOf ledger) p.startDay (totalDurationOf p) (baseLimitOf p)
            (numSimDays p now)).1)
    ∧ (∀ k : ℕ,
        (specSim (dailySpendOf ledger) p.startDay (totalDurationOf p) (baseLimitOf p)
            (k + 1)).1
          ≤ (specSim (dailySpendOf ledger) p.startDay (totalDurationOf p) (baseLimitOf p)
              k).1)
    ∧ (∀ k : ℕ,
        dailySpendOf ledger (p.startDay + (k : ℤ))
            < (specSim (dailySpendOf ledger) p.startDay (totalDurationOf p) (baseLimitOf p)
                k).1 →
          (specSim (dailySpendOf ledger) p.startDay (totalDurationOf p) (baseLimitOf p)
              (k + 1)).1
            = (specSim (dailySpendOf ledger) p.startDay (totalDurationOf p) (baseLimitOf p)
                k).1
          ∧ (specSim (dailySpendOf ledger) p.startDay (totalDurationOf p) (baseLimitOf p)
              (k + 1)).2
            = (specSim (dailySpendOf ledger) p.startDay (totalDurationOf p) (baseLimitOf p)
                k).2
              + ((specSim (dailySpendOf ledger) p.startDay (totalDurationOf p) (baseLimitOf p)
                  k).1
                - dailySpendOf ledger (p.startDay + (k : ℤ))))
    ∧ (∀ k : ℕ,
        (specSim (dailySpendOf ledger) p.startDay (totalDurationOf p) (baseLimitOf p)
            k).1
            < dailySpendOf ledger (p.startDay + (k : ℤ)) →
          (specSim (dailySpendOf ledger) p.startDay (totalDurationOf p) (baseLimitOf p)
              (k + 1)).2
            = (specSim (dailySpendOf ledger) p.startDay (totalDurationOf p) (baseLimitOf p)
                k).2) := by
  refine ⟨⟨?_, ?_⟩, ?_, ?_, ?_⟩
  · rw [specSim_eq_piggyLoop]
    rfl
  · rw [specSim_eq_piggyLoop]
    exact jsMax_eq_max 0 _
  · intro k
    simp only [specSim]
    exact specDayStep_fst_le _ _ _
  · intro k h
    simp only [specSim]
    rw [specDayStep_of_lt _ _ _ h]
    exact ⟨rfl, rfl⟩
  · intro k h
    simp only [specSim]
    exact specDayStep_snd_of_not_lt _ _ _ (lt_asymm h)

/-- Claim C2: on the concrete scenario (principal 300, a 10-day period
with zero fixed spend, Variable spends of 20 on day 1 and 45 on day 2),
evaluated on day 3, the simulator reports dailyLimit = 30 - 15/8 = 28.125,
safetyBuffer = 10, and baseDailyLimit = 30. -/
theorem budget_C2 :
    (calculateBudgetStats ⟨300, 0, 65, 1, 10⟩
        (dailySpendOf [⟨1, 20, TxnType.Variable⟩, ⟨2, 45, TxnType.Variable⟩])
        ((3 : ℤ) : ℚ)).realDailyLimit = 30 - 15 / 8
  ∧ (calculateBudgetStats ⟨300, 0, 65, 1, 10⟩
        (dailySpendOf [⟨1, 20, TxnType.Variable⟩, ⟨2, 45, TxnType.Variable⟩])
        ((3 : ℤ) : ℚ)).piggyBank = 10
  ∧ (calculateBudgetStats ⟨300, 0, 65, 1, 10⟩
        (dailySpendOf [⟨1, 20, TxnType.Variable⟩, ⟨2, 45, TxnType.Variable⟩])
        ((3 : ℤ) : ℚ)).baseDailyLimit = 30 := by
  have htd : totalDurationOf ⟨300, 0, 65, 1, 10⟩ = 10 := by
    rw [totalDurationOf_eq]
    decide
  have hbase : baseLimitOf ⟨300, 0, 65, 1, 10⟩ = 30 := by
    unfold baseLimitOf
    rw [htd]
    norm_num
  have hn : numSimDays ⟨300, 0, 65, 1, 10⟩ ((3 : ℤ) : ℚ) = 2 := by
    rw [numSimDays_int]
    decide
  refine ⟨?_, ?_, hbase⟩
  · show jsMax 0 (piggyLoop
        (dailySpendOf [⟨1, 20, TxnType.Variable⟩, ⟨2, 45, TxnType.Variable⟩])
        (numSimDays ⟨300, 0, 65, 1, 10⟩ ((3 : ℤ) : ℚ)) 1
        (totalDurationOf ⟨300, 0, 65, 1, 10⟩)
        (baseLimitOf ⟨300, 0, 65, 1, 10⟩) 0).1 = 30 - 15 / 8
    rw [hn, htd, hbase]
    simp [jsMax, piggyLoop, dailySpendOf, List.filter]
    norm_num
  · show (piggyLoop
        (dailySpendOf [⟨1, 20, TxnType.Variable⟩, ⟨2, 45, TxnType.Variable⟩])
        (numSimDays ⟨300, 0, 65, 1, 10⟩ ((3 : ℤ) : ℚ)) 1
        (totalDurationOf ⟨300, 0, 65, 1, 10⟩)
        (baseLimitOf ⟨300, 0, 65, 1, 10⟩) 0).2 = 10
    rw [hn, htd, hbase]
    simp [piggyLoop, dailySpendOf, List.filter]
    norm_num

theorem totalDuration_demo : totalDurationOf ⟨300, 0, 0, 1, 10⟩ = 10 := by
  rw [totalDurationOf_eq]
  decide

theorem baseLimit_demo : baseLimitOf ⟨300, 0, 0, 1, 10⟩ = 30 := by
  unfold baseLimitOf
  rw [totalDuration_demo]
  norm_num

theorem totalDuration_demo1 : totalDurationOf ⟨30, 0, 0, 1, 1⟩ = 1 := by
  rw [totalDurationOf_eq]
  decide

theorem baseLimit_demo1 : baseLimitOf ⟨30, 0, 0, 1, 1⟩ = 30 := by
  unfold baseLimitOf
  rw [totalDuration_demo1]
  norm_num

/-- Witness for C1: on the concrete scenario, day 1 spends 20, below the
day-0 running limit of 30, and the walk leaves the ceiling unchanged. -/
theorem budget_C1_witness :
    dailySpendOf [⟨1, 20, TxnType.Variable⟩, ⟨2, 45, TxnType.Variable⟩]
        ((⟨300, 0, 0, 1, 10⟩ : BudgetPeriod).startDay + ((0 : ℕ) : ℤ))
      < (specSim (dailySpendOf [⟨1, 20, TxnType.Variable⟩, ⟨2, 45, TxnType.Variable⟩])
          (⟨300, 0, 0, 1, 10⟩ : BudgetPeriod).startDay
          (totalDurationOf ⟨300, 0, 0, 1, 10⟩) (baseLimitOf ⟨300, 0, 0, 1, 10⟩) 0).1
  ∧ (specSim (dailySpendOf [⟨1, 20, TxnType.Variable⟩, ⟨2, 45, TxnType.Variable⟩])
        (⟨300, 0, 0, 1, 10⟩ : BudgetPeriod).startDay
        (totalDurationOf ⟨300, 0, 0, 1, 10⟩) (baseLimitOf ⟨300, 0, 0, 1, 10⟩) (0 + 1)).1
      = (specSim (dailySpendOf [⟨1, 20, TxnType.Variable⟩, ⟨2, 45, TxnType.Variable⟩])
          (⟨300, 0, 0, 1, 10⟩ : BudgetPeriod).startDay
          (totalDurationOf ⟨300, 0, 0, 1, 10⟩) (baseLimitOf ⟨300, 0, 0, 1, 10⟩) 0).1 := by
  have h : dailySpendOf [⟨1, 20, TxnType.Variable⟩, ⟨2, 45, TxnType.Variable⟩]
      ((⟨300, 0, 0, 1, 10⟩ : BudgetPeriod).startDay + ((0 : ℕ) : ℤ))
      < (specSim (dailySpendOf [⟨1, 20, TxnType.Variable⟩, ⟨2, 45, TxnType.Variable⟩])
          (⟨300, 0, 0, 1, 10⟩ : BudgetPeriod).startDay
          (totalDurationOf ⟨300, 0, 0, 1, 10⟩) (baseLimitOf ⟨300, 0, 0, 1, 10⟩) 0).1 := by
    show dailySpendOf [⟨1, 20, TxnType.Variable⟩, ⟨2, 45, TxnType.Variable⟩]
        ((1 : ℤ) + ((0 : ℕ) : ℤ)) < baseLimitOf ⟨300, 0, 0, 1, 10⟩
    rw [baseLimit_demo]
    have e : dailySpendOf [⟨1, 20, TxnType.Variable⟩, ⟨2, 45, TxnType.Variable⟩]
        ((1 : ℤ) + ((0 : ℕ) : ℤ)) = 20 := by
      simp [dailySpendOf, List.filter]
    rw [e]
    norm_num
  exact ⟨h, ((budget_C1 ⟨300, 0, 0, 1, 10⟩
    [⟨1, 20, TxnType.Variable⟩, ⟨2, 45, TxnType.Variable⟩] ((3 : ℤ) : ℚ)).2.2.1 0 h).1⟩

/-- Claim C3 (amended): the piggy-bank simulator reports
daysLeft = max(ceil(endOfFinalDay - now), 1) with endOfFinalDay the end
date at 23:59:59.999, and daysLeft is at least 1; the midnight-based
revision also floors at 1 (but measures to midnight of the end date, see
the counterexample). -/
theorem budget_C3_amended (p : BudgetPeriod) (spend : ℤ → ℚ) (now : ℚ) :
    (calculateBudgetStats p spend now).daysLeft
      = max ⌈((p.endDay : ℚ) + endFrac) - now⌉ 1
  ∧ 1 ≤ (calculateBudgetStats p spend now).daysLeft
  ∧ 1 ≤ (botCalculateBudgetStats p spend now).daysLeft := by
  refine ⟨rfl, ?_, ?_⟩
  · exact le_max_right _ _
  · exact le_max_right _ _

/-- Counterexample for C3: with the period ending on day 10 and the
evaluation at midnight of day 9, the bot revision reports daysLeft = 1
while the claimed formula (23:59:59.999-based) gives 2. -/
theorem budget_C3_cex :
    (botCalculateBudgetStats ⟨300, 0, 0, 1, 10⟩ (fun _ => 0) ((9 : ℤ) : ℚ)).daysLeft
      ≠ max ⌈(((10 : ℤ) : ℚ) + endFrac) - ((9 : ℤ) : ℚ)⌉ 1 := by
  have h1 : (botCalculateBudgetStats ⟨300, 0, 0, 1, 10⟩ (fun _ => 0) ((9 : ℤ) : ℚ)).daysLeft
      = 1 := by
    show botDaysLeftOf ⟨300, 0, 0, 1, 10⟩ ((9 : ℤ) : ℚ) = 1
    rw [botDaysLeftOf_int]
    show max ((10 : ℤ) - 9) 1 = 1
    omega
  have h2 : max ⌈(((10 : ℤ) : ℚ) + endFrac) - ((9 : ℤ) : ℚ)⌉ 1 = 2 := by
    rw [ceil_endFrac]
    omega
  rw [h1, h2]
  decide

/-- Claim C4 (amended): the piggy-bank simulator and the bot revision
always report a non-negative daily limit (both clamp with max(0, ·)); the
clamp-variant status handler omits the clamp and can report a negative
daily limit (see the counterexample). -/
theorem budget_C4_amended (p : BudgetPeriod) (spend : ℤ → ℚ) (now : ℚ) :
    0 ≤ (calculateBudgetStats p spend now).realDailyLimit
  ∧ 0 ≤ (botCalculateBudgetStats p spend now).realDailyLimit := by
  constructor
  · show (0 : ℚ) ≤ jsMax 0 (piggyLoop spend (numSimDays p now) p.startDay
        (totalDurationOf p) (baseLimitOf p) 0).1
    rw [jsMax_eq_max]
    exact le_max_left _ _
  · show (0 : ℚ) ≤ jsMax 0 (jsMin (botBaseOf p)
        ((p.principal - p.fixedSpent - p.varSpent) / ((botDaysLeftOf p now : ℤ) : ℚ)))
    rw [jsMax_eq_max]
    exact le_max_left _ _

/-- Counterexample for C4: with principal 100, variable spend 200 already
recorded and 4 days left, the clamp-variant handler reports
daily = min(10, -25) = -25, which is negative. -/
theorem budget_C4_cex :
    (clampApiStatus ⟨100, 0, 200, 0, 9⟩ 0 ((5 : ℤ) : ℚ)).daily < 0 := by
  have hd : botDaysLeftOf ⟨100, 0, 200, 0, 9⟩ ((5 : ℤ) : ℚ) = 4 := by
    rw [botDaysLeftOf_int]
    show max ((9 : ℤ) - 5) 1 = 4
    omega
  have htd : botTotalDurationOf ⟨100, 0, 200, 0, 9⟩ = 10 := by
    rw [botTotalDurationOf_eq]
    decide
  have hb : botBaseOf ⟨100, 0, 200, 0, 9⟩ = 10 := by
    unfold botBaseOf
    rw [htd]
    norm_num
  simp only [clampApiStatus]
  rw [hb, hd]
  norm_num [jsMin]

/-- Claim C5 (amended): for every BudgetPeriod whose baseDailyLimit is
non-negative, if spending is 0 on every simulated day then after N days
the simulator reports safetyBuffer = N * baseDailyLimit and
dailyLimit = baseDailyLimit.  (With a negative baseDailyLimit a zero-spend
day takes the overspend branch instead: the buffer stays 0, see the
counterexample.) -/
theorem budget_C5_amended (p : BudgetPeriod) (spend : ℤ → ℚ) (now : ℚ)
    (hbase : 0 ≤ baseLimitOf p)
    (h0 : ∀ k : ℕ, k < numSimDays p now → spend (p.startDay + (k : ℤ)) = 0) :
    (calculateBudgetStats p spend now).piggyBank
        = ((numSimDays p now : ℕ) : ℚ) * baseLimitOf p
  ∧ (calculateBudgetStats p spend now).realDailyLimit = baseLimitOf p := by
  have key : ∀ m : ℕ, m ≤ numSimDays p now →
      specSim spend p.startDay (totalDurationOf p) (baseLimitOf p) m
        = (baseLimitOf p, (m : ℚ) * baseLimitOf p) := by
    intro m
    induction m with
    | zero =>
        intro _
        simp [specSim]
    | succ m ih =>
        intro hm
        simp only [specSim]
        rw [ih (by omega), h0 m (by omega)]
        rcases eq_or_lt_of_le hbase with heq | hlt
        · unfold specDayStep
          rw [← heq]
          norm_num
        · rw [specDayStep_of_lt _ _ _ hlt]
          have : ((m : ℚ) + 1) * baseLimitOf p
              = (m : ℚ) * baseLimitOf p + (baseLimitOf p - 0) := by ring
          push_cast
          rw [this]
  have hmain := key (numSimDays p now) (le_refl _)
  constructor
  · show (piggyLoop spend (numSimDays p now) p.startDay
        (totalDurationOf p) (baseLimitOf p) 0).2 = _
    rw [← specSim_eq_piggyLoop, hmain]
  · show jsMax 0 (piggyLoop spend (numSimDays p now) p.startDay
        (totalDurationOf p) (baseLimitOf p) 0).1 = baseLimitOf p
    rw [← specSim_eq_piggyLoop, hmain, jsMax_eq_max]
    exact max_eq_right hbase

/-- Witness for C5: principal 300 over days 1..10 with no spending,
evaluated on day 4 (3 simulated days): buffer 3 * 30, limit 30. -/
theorem budget_C5_witness :
    (0 ≤ baseLimitOf ⟨300, 0, 0, 1, 10⟩)
  ∧ (calculateBudgetStats ⟨300, 0, 0, 1, 10⟩ (fun _ => 0) ((4 : ℤ) : ℚ)).piggyBank
      = ((numSimDays ⟨300, 0, 0, 1, 10⟩ ((4 : ℤ) : ℚ) : ℕ) : ℚ)
          * baseLimitOf ⟨300, 0, 0, 1, 10⟩
  ∧ (calculateBudgetStats ⟨300, 0, 0, 1, 10⟩ (fun _ => 0) ((4 : ℤ) : ℚ)).realDailyLimit
      = baseLimitOf ⟨300, 0, 0, 1, 10⟩ := by
  have hb0 : 0 ≤ baseLimitOf ⟨300, 0, 0, 1, 10⟩ := by
    rw [baseLimit_demo]
    norm_num
  have hc := budget_C5_amended ⟨300, 0, 0, 1, 10⟩ (fun _ => 0) ((4 : ℤ) : ℚ) hb0
    (fun _ _ => rfl)
  exact ⟨hb0, hc.1, hc.2⟩

/-- Counterexample for C5 as originally stated: with principal 0 and
fixedSpent 10 over days 1..2 (baseDailyLimit = -5) and no spending,
evaluated on day 2, the zero-spend day counts as overspending: the
reported buffer is 0, not 1 * (-5), and the reported limit is 0, not -5. -/
theorem budget_C5_cex :
    ¬ ((calculateBudgetStats ⟨0, 10, 0, 1, 2⟩ (fun _ => 0) ((2 : ℤ) : ℚ)).piggyBank
          = ((numSimDays ⟨0, 10, 0, 1, 2⟩ ((2 : ℤ) : ℚ) : ℕ) : ℚ)
              * baseLimitOf ⟨0, 10, 0, 1, 2⟩
        ∧ (calculateBudgetStats ⟨0, 10, 0, 1, 2⟩ (fun _ => 0) ((2 : ℤ) : ℚ)).realDailyLimit
          = baseLimitOf ⟨0, 10, 0, 1, 2⟩) := by
  have htd : totalDurationOf ⟨0, 10, 0, 1, 2⟩ = 2 := by
    rw [totalDurationOf_eq]
    decide
  have hb : baseLimitOf ⟨0, 10, 0, 1, 2⟩ = -5 := by
    unfold baseLimitOf
    rw [htd]
    norm_num
  have hn : numSimDays ⟨0, 10, 0, 1, 2⟩ ((2 : ℤ) : ℚ) = 1 := by
    rw [numSimDays_int]
    decide
  have hp : (calculateBudgetStats ⟨0, 10, 0, 1, 2⟩ (fun _ => 0) ((2 : ℤ) : ℚ)).piggyBank
      = 0 := by
    show (piggyLoop (fun _ => 0) (numSimDays ⟨0, 10, 0, 1, 2⟩ ((2 : ℤ) : ℚ)) 1
        (totalDurationOf ⟨0, 10, 0, 1, 2⟩) (baseLimitOf ⟨0, 10, 0, 1, 2⟩) 0).2 = 0
    rw [hn, htd, hb]
    norm_num [piggyLoop]
  intro h
  rw [hp, hn, hb] at h
  norm_num at h

/-- Claim C6: if every day's spend exceeds baseDailyLimit by a fixed
k > 0, the simulator reports safetyBuffer = 0 and the running limit of
the walk never increases from one iteration to the next. -/
theorem budget_C6 (p : BudgetPeriod) (spend : ℤ → ℚ) (now : ℚ) (c : ℚ)
    (hc : 0 < c) (hs : ∀ d : ℤ, spend d = baseLimitOf p + c) :
    (calculateBudgetStats p spend now).piggyBank = 0
  ∧ ∀ k : ℕ,
      (piggyLoop spend (k + 1) p.startDay (totalDurationOf p) (baseLimitOf p) 0).1
        ≤ (piggyLoop spend k p.startDay (totalDurationOf p) (baseLimitOf p) 0).1 := by
  have aux : ∀ j : ℕ,
      (specSim spend p.startDay (totalDurationOf p) (baseLimitOf p) j).1 ≤ baseLimitOf p
    ∧ (specSim spend p.startDay (totalDurationOf p) (baseLimitOf p) j).2 = 0 := by
    intro j
    induction j with
    | zero => exact ⟨le_refl _, rfl⟩
    | succ j ih =>
        constructor
        · simp only [specSim]
          exact le_trans (specDayStep_fst_le _ _ _) ih.1
        · simp only [specSim]
          rw [specDayStep_snd_of_not_lt]
          · exact ih.2
          · rw [hs]
            push_neg
            linarith [ih.1]
  constructor
  · show (piggyLoop spend (numSimDays p now) p.startDay
        (totalDurationOf p) (baseLimitOf p) 0).2 = 0
    rw [← specSim_eq_piggyLoop]
    exact (aux _).2
  · intro k
    rw [← specSim_eq_piggyLoop, ← specSim_eq_piggyLoop]
    simp only [specSim]
    exact specDayStep_fst_le _ _ _

/-- Witness for C6: principal 300 over days 1..10 (base 30), constant
spend 35 = 30 + 5: buffer is 0. -/
theorem budget_C6_witness :
    ((0 : ℚ) < 5 ∧ ∀ d : ℤ, (fun _ : ℤ => (35 : ℚ)) d = baseLimitOf ⟨300, 0, 0, 1, 10⟩ + 5)
  ∧ (calculateBudgetStats ⟨300, 0, 0, 1, 10⟩ (fun _ => 35) ((3 : ℤ) : ℚ)).piggyBank = 0 := by
  have hs : ∀ d : ℤ, (fun _ : ℤ => (35 : ℚ)) d = baseLimitOf ⟨300, 0, 0, 1, 10⟩ + 5 := by
    intro d
    rw [baseLimit_demo]
    norm_num
  exact ⟨⟨by norm_num, hs⟩,
    (budget_C6 ⟨300, 0, 0, 1, 10⟩ (fun _ => 35) ((3 : ℤ) : ℚ) 5 (by norm_num) hs).1⟩

/-- Claim C7 (amended): in the piggy-bank status handler, the reported
isWarning flag is true exactly when leftToday < 0.  (The clamp-variant
handler instead warns when morningDynamicLimit < staticCeiling, which can
hold with leftToday non-negative, see the counterexample.) -/
theorem budget_C7_amended (p : BudgetPeriod) (spend : ℤ → ℚ) (now : ℚ) :
    (apiStatus (some p) spend now).isWarning = true
  ↔ (apiStatus (some p) spend now).leftToday < 0 := by
  show decide ((calculateBudgetStats p spend now).leftToday < 0) = true
    ↔ (calculateBudgetStats p spend now).leftToday < 0
  exact decide_eq_true_iff

/-- Counterexample for C7: with principal 100, variable spend 80, nothing
spent today and 4 days left, the clamp-variant handler sets
isWarning = true (5 = morningDynamicLimit < staticCeiling = 10) although
leftToday = 5 is not negative. -/
theorem budget_C7_cex :
    (clampApiStatus ⟨100, 0, 80, 0, 9⟩ 0 ((5 : ℤ) : ℚ)).isWarning = true
  ∧ ¬ ((clampApiStatus ⟨100, 0, 80, 0, 9⟩ 0 ((5 : ℤ) : ℚ)).leftToday < 0) := by
  have hd : botDaysLeftOf ⟨100, 0, 80, 0, 9⟩ ((5 : ℤ) : ℚ) = 4 := by
    rw [botDaysLeftOf_int]
    show max ((9 : ℤ) - 5) 1 = 4
    omega
  have htd : botTotalDurationOf ⟨100, 0, 80, 0, 9⟩ = 10 := by
    rw [botTotalDurationOf_eq]
    decide
  have hb : botBaseOf ⟨100, 0, 80, 0, 9⟩ = 10 := by
    unfold botBaseOf
    rw [htd]
    norm_num
  constructor
  · simp only [clampApiStatus]
    rw [hb, hd]
    norm_num
  · simp only [clampApiStatus]
    rw [hb, hd]
    norm_num [jsMin]

/-- Claim C8: the set-budget validator accepts structurally valid dates in
any month — evaluated at the failing input of dates in January 2020
(regardless of when the command runs), the date check passes and the
command creates the BudgetPeriod instead of rejecting it. -/
theorem budget_C8_bug :
    isValidDateInCurrentMonth 1 1 2020 = true
  ∧ budgetCommand 1 1 2020 5 1 2020 (some 100)
      = BudgetCmdOutcome.created (1, 1, 2020) (5, 1, 2020) 100 := by
  constructor
  · decide
  · unfold budgetCommand
    norm_num [isValidDateInCurrentMonth, daysInMonth, isLeapYear, dateBefore]

/-- Claim C9: with no BudgetPeriod configured, the status endpoint returns
the inactive body (active = false) as a normal value — the embedding is a
total function, so no exception path exists. -/
theorem budget_C9 (spend : ℤ → ℚ) (now : ℚ) :
    apiStatus none spend now = inactiveStatus
  ∧ (apiStatus none spend now).active = false :=
  ⟨rfl, rfl⟩

/-- Claim C10: the simulation loop of the piggy-bank engine runs to the
day before the evaluation day with no cap at the end date: when the
evaluation day is strictly past endDay the iteration count exceeds
totalDuration, and on every iteration at or past totalDuration the
remaining-days counter is no longer positive, so the limit is unchanged
while a below-limit day still credits the difference to the buffer. -/
theorem budget_C10 (p : BudgetPeriod) (spend : ℤ → ℚ) (now : ℚ)
    (hpast : p.endDay < ⌊now⌋) :
    totalDurationOf p ≤ ((numSimDays p now : ℕ) : ℤ)
  ∧ ∀ k : ℕ, totalDurationOf p ≤ (k : ℤ) →
      ((piggyLoop spend (k + 1) p.startDay (totalDurationOf p) (baseLimitOf p) 0).1
        = (piggyLoop spend k p.startDay (totalDurationOf p) (baseLimitOf p) 0).1
      ∧ (spend (p.startDay + (k : ℤ))
            < (piggyLoop spend k p.startDay (totalDurationOf p) (baseLimitOf p) 0).1 →
          (piggyLoop spend (k + 1) p.startDay (totalDurationOf p) (baseLimitOf p) 0).2
            = (piggyLoop spend k p.startDay (totalDurationOf p) (baseLimitOf p) 0).2
              + ((piggyLoop spend k p.startDay (totalDurationOf p) (baseLimitOf p) 0).1
                - spend (p.startDay + (k : ℤ))))) := by
  constructor
  · rw [totalDurationOf_eq]
    unfold numSimDays
    have h := Int.self_le_toNat (⌊now⌋ - p.startDay)
    omega
  · intro k hk
    constructor
    · rw [piggyLoop_succ_eq]
      exact specDayStep_fst_of_nonpos _ _ _ (by omega)
    · intro h
      rw [piggyLoop_succ_eq, specDayStep_of_lt _ _ _ h]

/-- Witness for C10: a one-day period (day 1 only, principal 30) evaluated
on day 3: the second simulated day (index 1, already past the period)
still credits the full running limit of 30 to the buffer. -/
theorem budget_C10_witness :
    ((⟨30, 0, 0, 1, 1⟩ : BudgetPeriod).endDay < ⌊((3 : ℤ) : ℚ)⌋)
  ∧ (piggyLoop (fun _ => 0) (1 + 1) 1
        (totalDurationOf ⟨30, 0, 0, 1, 1⟩) (baseLimitOf ⟨30, 0, 0, 1, 1⟩) 0).2
      = (piggyLoop (fun _ => 0) 1 1
          (totalDurationOf ⟨30, 0, 0, 1, 1⟩) (baseLimitOf ⟨30, 0, 0, 1, 1⟩) 0).2
        + ((piggyLoop (fun _ => 0) 1 1
            (totalDurationOf ⟨30, 0, 0, 1, 1⟩) (baseLimitOf ⟨30, 0, 0, 1, 1⟩) 0).1
          - (fun _ : ℤ => (0 : ℚ)) ((⟨30, 0, 0, 1, 1⟩ : BudgetPeriod).startDay
              + ((1 : ℕ) : ℤ))) := by
  have hpast : (⟨30, 0, 0, 1, 1⟩ : BudgetPeriod).endDay < ⌊((3 : ℤ) : ℚ)⌋ := by
    rw [Int.floor_intCast]
    decide
  have hlim : (piggyLoop (fun _ => 0) 1 1
      (totalDurationOf ⟨30, 0, 0, 1, 1⟩) (baseLimitOf ⟨30, 0, 0, 1, 1⟩) 0).1 = 30 := by
    rw [totalDuration_demo1, baseLimit_demo1]
    norm_num [piggyLoop]
  have h : (fun _ : ℤ => (0 : ℚ)) ((⟨30, 0, 0, 1, 1⟩ : BudgetPeriod).startDay
      + ((1 : ℕ) : ℤ))
      < (piggyLoop (fun _ => 0) 1 1
          (totalDurationOf ⟨30, 0, 0, 1, 1⟩) (baseLimitOf ⟨30, 0, 0, 1, 1⟩) 0).1 := by
    rw [hlim]
    norm_num
  exact ⟨hpast, ((budget_C10 ⟨30, 0, 0, 1, 1⟩ (fun _ => 0) ((3 : ℤ) : ℚ) hpast).2 1
    (by rw [totalDuration_demo1]; decide)).2 h⟩
